import Mathlib

/-!
Shallow embedding of the MCP connection-lifecycle layer of the chatllm
repository: the connector registry (MCPRegistry), the connector factory
(MCPConnectorFactory), the STDIO/SSE connectors, the MCPConnection state
machine, and the MCP tool facade (MCPToolRegistry / MCPTool).

JavaScript Maps are embedded as association lists with first-match lookup,
insert-or-replace set, and erase.  Promise-returning methods are embedded as
functions returning `Except String _` together with the updated state; the
behaviour of the external MCP SDK client (whether `client.connect` /
`client.close` succeed) is a parameter (`ConnBeh`) of each operation, so the
theorems quantify over every possible outcome of the external world.
-/

namespace ChatLLM

/-- First-match lookup in an association list (JS `Map.get`). -/
def mapLookup {α : Type} (m : List (String × α)) (k : String) : Option α :=
  match m with
  | [] => none
  | (k₁, v) :: rest => if k₁ = k then some v else mapLookup rest k

/-- Insert-or-replace (JS `Map.set`): replaces the first binding of `k`,
otherwise appends. -/
def mapSet {α : Type} (m : List (String × α)) (k : String) (v : α) :
    List (String × α) :=
  match m with
  | [] => [(k, v)]
  | (k₁, v₁) :: rest =>
      if k₁ = k then (k, v) :: rest else (k₁, v₁) :: mapSet rest k v

/-- Removal (JS `Map.delete`): removes the binding of `k`. -/
def mapErase {α : Type} (m : List (String × α)) (k : String) :
    List (String × α) :=
  match m with
  | [] => []
  | (k₁, v) :: rest =>
      if k₁ = k then mapErase rest k else (k₁, v) :: mapErase rest k

/-- JS `a || b` on an optional string: `undefined` and the empty string are
falsy, so they fall through to the default. -/
def jsOrStr (s : Option String) (d : String) : String :=
  match s with
  | none => d
  | some t => if t = "" then d else t

/-- Embedding of `MCPServerConfig` (MCPRegistry.ts): static registration record for one
server. -/
structure MCPServerConfig where
  command : Option String := none
  args : Option (List String) := none
  url : Option String := none
  serverName : String
  env : Option (List (String × String)) := none
  type : Option String := none
  deriving Repr, DecidableEq

/-- Embedding of `MCPServerOptions` (MCPConnectorFactory.ts): the options handed to the
factory, with a definite `type` and `serverId`. -/
structure MCPServerOptions where
  type : String
  command : Option String := none
  args : Option (List String) := none
  serverName : String
  serverId : String
  url : Option String := none
  env : Option (List (String × String)) := none
  deriving Repr, DecidableEq

/-- The conversion performed inside `MCPRegistry.getConnector`:
`{ ...options, type: options.type || 'stdio', serverId }`. -/
def MCPServerConfig.toOptions (cfg : MCPServerConfig) (serverId : String) :
    MCPServerOptions :=
  { type := jsOrStr cfg.type "stdio"
    command := cfg.command
    args := cfg.args
    serverName := cfg.serverName
    serverId := serverId
    url := cfg.url
    env := cfg.env }

/-- Transport-specific payload of a connector: `STDIOMCPConnector` keeps the
spawn parameters, `SSEMCPConnector` keeps the URL. -/
inductive ConnectorKind where
  | stdio (command : String) (args : List String)
      (env : Option (List (String × String)))
  | sse (url : String)
  deriving Repr, DecidableEq

/-- A connector object (`STDIOMCPConnector` / `SSEMCPConnector`): options plus
the private `connected` flag. -/
structure MCPConnector where
  serverId : String
  serverName : String
  kind : ConnectorKind
  connected : Bool := false
  deriving Repr, DecidableEq

/-- Outcome of the external SDK client for one server: whether
`client.connect` resolves and whether `client.close` resolves. -/
structure ConnBeh where
  connectResult : Except String Unit := .ok ()
  closeResult : Except String Unit := .ok ()

/-- Per-server behaviour of the external world. -/
def Behavior : Type := String → ConnBeh

/-- Embedding of `MCPConnectorFactory.createConnector`: dispatch on `options.type`.
The guards are `if (!options.command)` / `if (!options.url)` in the source,
so by JS falsiness both a missing and an empty-string command/URL throw;
unknown types throw as well. -/
def MCPConnectorFactory.createConnector (opts : MCPServerOptions) :
    Except String MCPConnector :=
  if opts.type = "stdio" then
    match opts.command with
    | none => .error "Command is required for STDIO connector"
    | some cmd =>
        if cmd = "" then .error "Command is required for STDIO connector"
        else
          .ok { serverId := opts.serverId, serverName := opts.serverName
                kind := .stdio cmd (opts.args.getD []) opts.env
                connected := false }
  else if opts.type = "sse" then
    match opts.url with
    | none => .error "URL is required for SSE connector"
    | some url =>
        if url = "" then .error "URL is required for SSE connector"
        else
          .ok { serverId := opts.serverId, serverName := opts.serverName
                kind := .sse url, connected := false }
  else .error ("Unsupported connector type: " ++ opts.type)

/-- Embedding of `STDIOMCPConnector.connect` / `SSEMCPConnector.connect`: no-op when
already connected; otherwise the SDK `client.connect` outcome decides —
success sets `connected = true`, failure is rethrown and leaves the flag
false. -/
def MCPConnector.connect (beh : Behavior) (c : MCPConnector) :
    Except String MCPConnector :=
  if c.connected then .ok c
  else
    match (beh c.serverId).connectResult with
    | .ok () => .ok { c with connected := true }
    | .error e => .error e

/-- Embedding of `STDIOMCPConnector.disconnect` / `SSEMCPConnector.disconnect`: no-op when
not connected; otherwise `client.close` decides — success clears the flag,
failure is rethrown and leaves `connected = true`. -/
def MCPConnector.disconnect (beh : Behavior) (c : MCPConnector) :
    Except String MCPConnector :=
  if ¬ c.connected then .ok c
  else
    match (beh c.serverId).closeResult with
    | .ok () => .ok { c with connected := false }
    | .error e => .error e

/-- Embedding of `isConnected()`. -/
def MCPConnector.isConnected (c : MCPConnector) : Bool := c.connected

/-- Observable side effects of registry operations, used to state that a code
path never constructs a connector or a transport. -/
inductive Event where
  | constructConnector (serverId : String)
  | constructTransport (serverId : String)
  | connectAttempt (serverId : String)
  deriving Repr, DecidableEq

/-- Embedding of `MCPRegistry` state: the live-connector cache and the descriptor map. -/
structure MCPRegistry where
  connectors : List (String × MCPConnector) := []
  servers : List (String × MCPServerConfig) := []
  deriving Repr, DecidableEq

/-- Embedding of `MCPRegistry.registerServer`: stores/overwrites the descriptor; does not
connect. -/
def MCPRegistry.registerServer (reg : MCPRegistry) (serverId : String)
    (cfg : MCPServerConfig) : MCPRegistry :=
  { reg with servers := mapSet reg.servers serverId cfg }

/-- Result of the synchronous prefix of `MCPRegistry.getConnector` (everything
before the `await connector.connect()` suspension point): either an immediate
settlement (cache hit, not-registered error, factory throw) or a constructed
connector whose connect attempt has just started. -/
inductive GetPhase1 where
  | immediate (r : Except String MCPConnector)
  | pending (conn : MCPConnector)
  deriving Repr

/-- Synchronous prefix of `MCPRegistry.getConnector`: cache check, descriptor
lookup, factory construction, and the synchronous start of the connector's
`connect()` (which builds the transport before its first await). -/
def MCPRegistry.getConnectorPhase1 (reg : MCPRegistry) (serverId : String) :
    GetPhase1 × List Event :=
  match mapLookup reg.connectors serverId with
  | some c => (.immediate (.ok c), [])
  | none =>
      match mapLookup reg.servers serverId with
      | none => (.immediate (.error ("Server not registered: " ++ serverId)), [])
      | some cfg =>
          match MCPConnectorFactory.createConnector (cfg.toOptions serverId) with
          | .error e => (.immediate (.error e), [])
          | .ok conn =>
              (.pending conn,
               [.constructConnector serverId, .constructTransport serverId,
                .connectAttempt serverId])

/-- Continuation of `MCPRegistry.getConnector` after `await connector.connect()`
settles: a rejection propagates untouched, a success memoizes the connected
connector. -/
def MCPRegistry.getConnectorPhase2 (beh : Behavior) (reg : MCPRegistry)
    (serverId : String) (conn : MCPConnector) :
    Except String MCPConnector × MCPRegistry :=
  match conn.connect beh with
  | .error e => (.error e, reg)
  | .ok conn' =>
      (.ok conn', { reg with connectors := mapSet reg.connectors serverId conn' })

/-- Embedding of `MCPRegistry.getConnector`: the two phases run back to back. -/
def MCPRegistry.getConnector (beh : Behavior) (reg : MCPRegistry)
    (serverId : String) :
    Except String MCPConnector × MCPRegistry × List Event :=
  match reg.getConnectorPhase1 serverId with
  | (.immediate r, ev) => (r, reg, ev)
  | (.pending conn, ev) =>
      match MCPRegistry.getConnectorPhase2 beh reg serverId conn with
      | (r, reg') => (r, reg', ev)

/-- Event-loop interleaving of two concurrent `getConnector(serverId)` calls.
Caller A runs its synchronous prefix; if A suspends at
`await connector.connect()`, caller B (started before A's connect settles)
runs its own synchronous prefix against the still-unchanged registry, then
A's continuation runs, then B's.  If A settles synchronously, B simply runs
the whole call afterwards. -/
def MCPRegistry.getConnectorConcurrent (beh : Behavior) (reg : MCPRegistry)
    (serverId : String) :
    (Except String MCPConnector × Except String MCPConnector) ×
      MCPRegistry × List Event :=
  match reg.getConnectorPhase1 serverId with
  | (.immediate r₁, ev₁) =>
      match MCPRegistry.getConnector beh reg serverId with
      | (r₂, reg', ev₂) => ((r₁, r₂), reg', ev₁ ++ ev₂)
  | (.pending c₁, ev₁) =>
      match reg.getConnectorPhase1 serverId with
      | (.immediate r₂, ev₂) =>
          match MCPRegistry.getConnectorPhase2 beh reg serverId c₁ with
          | (r₁, reg') => ((r₁, r₂), reg', ev₁ ++ ev₂)
      | (.pending c₂, ev₂) =>
          match MCPRegistry.getConnectorPhase2 beh reg serverId c₁ with
          | (r₁, reg₁) =>
              match MCPRegistry.getConnectorPhase2 beh reg₁ serverId c₂ with
              | (r₂, reg₂) => ((r₁, r₂), reg₂, ev₁ ++ ev₂)

/-- Effect of `disconnectAll` on one cached connector: connected entries get
`disconnect()` called (a rejection leaves the connector as it was), the rest
are untouched. -/
def MCPRegistry.disconnectAllStep (beh : Behavior) (c : MCPConnector) :
    MCPConnector :=
  if c.isConnected then
    match c.disconnect beh with
    | .ok c' => c'
    | .error _ => c
  else c

/-- The rejection (if any) that one member contributes to the `Promise.all`
join of `disconnectAll`. -/
def MCPRegistry.disconnectAllFailure (beh : Behavior) (c : MCPConnector) :
    Option String :=
  if c.isConnected then
    match (c.disconnect beh : Except String MCPConnector) with
    | .ok _ => none
    | .error e => some e
  else none

/-- Embedding of `MCPRegistry.disconnectAll`: filters the cached connectors to the
currently-connected ones, starts `disconnect()` on each of them (all attempts
are made: the fan-out happens before the join), and awaits `Promise.all`,
which rejects with the first member rejection when one graceful close throws.
No entry is removed from the connector cache. -/
def MCPRegistry.disconnectAll (beh : Behavior) (reg : MCPRegistry) :
    Except String Unit × MCPRegistry :=
  let failures := reg.connectors.filterMap
    (fun kc => MCPRegistry.disconnectAllFailure beh kc.2)
  let joined : Except String Unit :=
    match failures with
    | [] => .ok ()
    | e :: _ => .error e
  let connectors' :=
    reg.connectors.map (fun kc => (kc.1, MCPRegistry.disconnectAllStep beh kc.2))
  (joined, { reg with connectors := connectors' })

/-- Embedding of `MCPRegistry.disconnectServer`: absent entry throws "Server not found";
a connected entry is gracefully disconnected first (a rethrown close error
aborts the method before the cache delete); the delete only runs after a
successful (or skipped) disconnect. -/
def MCPRegistry.disconnectServer (beh : Behavior) (reg : MCPRegistry)
    (serverId : String) : Except String Unit × MCPRegistry :=
  match mapLookup reg.connectors serverId with
  | none => (.error ("Server not found: " ++ serverId), reg)
  | some c =>
      if c.isConnected then
        match c.disconnect beh with
        | .error e => (.error e, reg)
        | .ok c' =>
            (.ok (),
             { reg with connectors :=
                 mapErase (mapSet reg.connectors serverId c') serverId })
      else
        (.ok (), { reg with connectors := mapErase reg.connectors serverId })

/-- Embedding of `MCPService.disconnectAll`: awaits the registry's `disconnectAll` inside a
try/catch that logs and swallows any rejection, so the service-level call
always resolves. -/
def MCPService.disconnectAll (beh : Behavior) (reg : MCPRegistry) :
    Except String Unit × MCPRegistry :=
  match MCPRegistry.disconnectAll beh reg with
  | (_, reg') => (.ok (), reg')

/-- Embedding of `MCPService.disconnectServer`: forwards to the registry and rewraps any
rejection in a "Failed to disconnect MCP server" error. -/
def MCPService.disconnectServer (beh : Behavior) (reg : MCPRegistry)
    (serverId : String) : Except String Unit × MCPRegistry :=
  match MCPRegistry.disconnectServer beh reg serverId with
  | (.ok (), reg') => (.ok (), reg')
  | (.error e, reg') =>
      (.error ("Failed to disconnect MCP server: " ++ e), reg')

/-- Embedding of `ConnectionState` (MCPConnection.ts). -/
inductive ConnectionState where
  | disconnected
  | connecting
  | connected
  | error
  deriving Repr, DecidableEq

/-- Embedding of `MCPConnection` (abstract base class): connection state machine with the
SDK client hidden behind outcome parameters.  `transport` is an abstract
reference (`none` = null); `nextTransportId` distinguishes the transports
built by successive `constructTransport()` calls.  Note that the source never
assigns `'connecting'` to `connectionState` — it only emits the event — so
the field itself only ever holds `disconnected`, `connected` or `error`. -/
structure MCPConnection where
  serverId : String
  serverName : String
  connectionState : ConnectionState := .disconnected
  transport : Option Nat := none
  nextTransportId : Nat := 0
  connectPromise : Bool := false
  lastError : Option String := none
  reconnectAttempts : Nat := 0
  maxReconnectAttempts : Nat := 5
  reconnectDelay : ℚ := 2000
  deriving Repr, DecidableEq

/-- Embedding of `isConnected()`. -/
def MCPConnection.isConnected (c : MCPConnection) : Bool :=
  c.connectionState = .connected

/-- Synchronous part of `MCPConnection.handleReconnection`: at the attempt
ceiling it logs and returns without scheduling; otherwise it increments the
attempt counter and schedules a retry after
`reconnectDelay * 1.5 ^ (reconnectAttempts - 1)` milliseconds (the retry's
own `connect()` call happens after that delay and is modelled as a separate
step).  Returns the scheduled delay, if any. -/
def MCPConnection.handleReconnectionSched (c : MCPConnection) :
    MCPConnection × Option ℚ :=
  if c.reconnectAttempts ≥ c.maxReconnectAttempts then (c, none)
  else
    ({ c with reconnectAttempts := c.reconnectAttempts + 1 },
     some (c.reconnectDelay * (3 / 2 : ℚ) ^ c.reconnectAttempts))

/-- The `connectionChange` listener installed in the constructor: on an
`error` event it starts `handleReconnection()` unless the state field reads
`connecting` at that instant. -/
def MCPConnection.onConnectionChange (c : MCPConnection)
    (newState : ConnectionState) : MCPConnection × Option ℚ :=
  if newState = .error ∧ c.connectionState ≠ .connecting then
    c.handleReconnectionSched
  else (c, none)

/-- Embedding of `MCPConnection.connect`: no-op when already connected; a second caller
joins the in-flight promise; otherwise emits `connecting` (state field is not
assigned), closes and clears any existing transport, builds a fresh one, and
races the SDK handshake against the connect timeout.  Success sets
`connected` and zeroes the attempt counter.  Failure sets the state field to
`error` and records `lastError` before emitting the `error` event, so the
listener's `≠ connecting` guard passes and a reconnect gets scheduled; the
error is then rethrown.  Returns (result, state, scheduled backoff delay). -/
def MCPConnection.connect (handshake : Except String Unit)
    (c : MCPConnection) :
    Except String Unit × MCPConnection × Option ℚ :=
  if c.connectionState = .connected then (.ok (), c, none)
  else if c.connectPromise then (.ok (), c, none)
  else
    let c₁ := { c with connectPromise := true, transport := none }
    let c₂ := { c₁ with transport := some c₁.nextTransportId,
                        nextTransportId := c₁.nextTransportId + 1 }
    match handshake with
    | .ok () =>
        (.ok (),
         { c₂ with connectionState := .connected, reconnectAttempts := 0,
                   connectPromise := false },
         none)
    | .error e =>
        let c₃ := { c₂ with connectionState := .error, lastError := some e }
        match c₃.onConnectionChange .error with
        | (c₄, sched) => (.error e, { c₄ with connectPromise := false }, sched)

/-- Embedding of `MCPConnection.disconnect`: no-op when already disconnected; otherwise
closes the client (a close error is caught and logged) and in the `finally`
block clears the transport and resets the state to `disconnected`.  The
method itself never rejects. -/
def MCPConnection.disconnect (_closeResult : Except String Unit)
    (c : MCPConnection) : MCPConnection :=
  if c.connectionState = .disconnected then c
  else { c with transport := none, connectionState := .disconnected }

/-- Embedding of `MCPConnection.sendRequest`: throws a not-connected error immediately when
the state is not `connected` (nothing is queued or recorded); while connected,
the SDK call outcome decides — a rejection (timeout or error response) is
logged, emits an `error` event (without assigning the state field, so the
listener bumps the attempt counter and schedules a retry whose `connect()`
will no-op against the still-`connected` state), and is rethrown. -/
def MCPConnection.sendRequest (outcome : Except String String)
    (c : MCPConnection) :
    Except String String × MCPConnection × Option ℚ :=
  if c.connectionState ≠ .connected then
    (.error ("MCP server " ++ c.serverId ++ " is not connected"), c, none)
  else
    match outcome with
    | .ok v => (.ok v, c, none)
    | .error e =>
        match c.onConnectionChange .error with
        | (c', sched) => (.error e, c', sched)

/-- Node's `process.env` has `string | undefined` values; the source filters
the undefined ones out before passing the result along
(`Object.entries(process.env).filter(([_, v]) => v !== undefined)`). -/
def filterDefinedEnv (procEnv : List (String × Option String)) :
    List (String × String) :=
  procEnv.filterMap (fun kv => kv.2.map (fun v => (kv.1, v)))

/-- The `env` handed to `new StdioClientTransport` in
`STDIOMCPConnector.connect`: `this.options.env || <filtered process.env>`
(any supplied object — even an empty one — is truthy and wins). -/
def STDIOMCPConnector.spawnEnv (env : Option (List (String × String)))
    (procEnv : List (String × Option String)) : List (String × String) :=
  match env with
  | some e => e
  | none => filterDefinedEnv procEnv

/-- Environment the child process of a connector is spawned with: defined for
stdio connectors only. -/
def MCPConnector.stdioSpawnEnv (c : MCPConnector)
    (procEnv : List (String × Option String)) :
    Option (List (String × String)) :=
  match c.kind with
  | .stdio _ _ env => some (STDIOMCPConnector.spawnEnv env procEnv)
  | .sse _ => none

/-- Embedding of `MCPCapability` (models/MCPServer.ts). -/
structure MCPCapability where
  name : String
  description : String
  deriving Repr, DecidableEq

/-- The fields of an enabled `MCPServer` row that
`MCPToolRegistry.createLangChainTools` reads. -/
structure MCPServerRec where
  id : String
  name : String
  capabilities : List MCPCapability
  deriving Repr, DecidableEq

/-- An `MCPTool` instance: the prefixed LangChain tool name and the bare
capability stored for MCP API calls. -/
structure MCPToolModel where
  name : String
  description : String
  mcpServerId : String
  capability : String
  deriving Repr, DecidableEq

/-- Loop body of `createLangChainTools` for one enabled server: with declared
capabilities, one tool per capability named `{server.name}-{capability.name}`
holding the bare capability; with none, a single `{server.name}-default` tool
holding the capability `"default"`. -/
def MCPToolRegistry.toolsForServer (server : MCPServerRec) :
    List MCPToolModel :=
  if server.capabilities.length > 0 then
    server.capabilities.map (fun cap =>
      { name := server.name ++ "-" ++ cap.name
        description := cap.description
        mcpServerId := server.id
        capability := cap.name })
  else
    [{ name := server.name ++ "-default"
       description := "Interact with " ++ server.name ++ " MCP server"
       mcpServerId := server.id
       capability := "default" }]

/-- Embedding of `MCPToolRegistry.createLangChainTools`: iterates over the enabled servers,
pushing each server's tools onto the accumulated array. -/
def MCPToolRegistry.createLangChainTools (servers : List MCPServerRec) :
    List MCPToolModel :=
  servers.foldl (fun tools server => tools ++ MCPToolRegistry.toolsForServer server) []

/-- The request a tool invocation puts on the wire: target server and the
protocol method name passed to the connector's `callTool`. -/
structure ToolCallWire where
  serverId : String
  method : String
  deriving Repr, DecidableEq

/-- Embedding of `MCPService.processMCPRequest(serverId, method, params)`: resolves the
connector and forwards `connector.callTool(method, params)` — the method
string reaches the wire unchanged. -/
def MCPService.processMCPRequestWire (serverId method : String) :
    ToolCallWire :=
  { serverId := serverId, method := method }

/-- Embedding of `MCPTool._call(input)`: forwards
`processMCPRequest(this.mcpServerId, this.capability, input)` — the stored
bare capability, not the prefixed tool name, is the protocol method. -/
def MCPTool.issuedWire (t : MCPToolModel) : ToolCallWire :=
  MCPService.processMCPRequestWire t.mcpServerId t.capability

/-! ## Theorems -/

/-- Both factory branches return a connector with `connected = false`. -/
theorem MCPConnectorFactory.createConnector_connected (opts : MCPServerOptions)
    (conn : MCPConnector)
    (h : MCPConnectorFactory.createConnector opts = .ok conn) :
    conn.connected = false := by
  unfold MCPConnectorFactory.createConnector at h
  split at h
  · split at h
    · injection h
    · split at h
      · injection h
      · injection h with h
        subst h
        rfl
  · split at h
    · split at h
      · injection h
      · split at h
        · injection h
        · injection h with h
          subst h
          rfl
    · injection h

/-- Both factory branches keep the requested `serverId`. -/
theorem MCPConnectorFactory.createConnector_serverId (opts : MCPServerOptions)
    (conn : MCPConnector)
    (h : MCPConnectorFactory.createConnector opts = .ok conn) :
    conn.serverId = opts.serverId := by
  unfold MCPConnectorFactory.createConnector at h
  split at h
  · split at h
    · injection h
    · split at h
      · injection h
      · injection h with h
        subst h
        rfl
  · split at h
    · split at h
      · injection h
      · split at h
        · injection h
        · injection h with h
          subst h
          rfl
    · injection h

/-- C1: `getConnector` returns the memoized connector when cached; for an
unregistered id it rejects with the not-registered error, leaving the
registry untouched and performing no connector/transport construction (empty
event trace); and when the freshly constructed connector's `connect()`
rejects, the rejection propagates to the caller with the registry — in
particular the connector cache — left unchanged (memoization happens only
after a successful connect). -/
theorem mcp_c1 (beh : Behavior) (reg : MCPRegistry) (serverId : String) :
    (∀ c, mapLookup reg.connectors serverId = some c →
        MCPRegistry.getConnector beh reg serverId = (.ok c, reg, []))
    ∧ (mapLookup reg.connectors serverId = none →
       mapLookup reg.servers serverId = none →
        MCPRegistry.getConnector beh reg serverId =
          (.error ("Server not registered: " ++ serverId), reg, []))
    ∧ (∀ cfg conn e, mapLookup reg.connectors serverId = none →
        mapLookup reg.servers serverId = some cfg →
        MCPConnectorFactory.createConnector (cfg.toOptions serverId) = .ok conn →
        (beh serverId).connectResult = .error e →
        (MCPRegistry.getConnector beh reg serverId).1 = .error e ∧
        (MCPRegistry.getConnector beh reg serverId).2.1 = reg) := by
  refine ⟨?_, ?_, ?_⟩
  · intro c hc
    unfold MCPRegistry.getConnector MCPRegistry.getConnectorPhase1
    rw [hc]
  · intro hc hs
    unfold MCPRegistry.getConnector MCPRegistry.getConnectorPhase1
    rw [hc, hs]
  · intro cfg conn e hc hs hf hb
    have hcf : conn.connected = false :=
      MCPConnectorFactory.createConnector_connected _ _ hf
    have hp1 : MCPRegistry.getConnectorPhase1 reg serverId =
        (.pending conn,
         [.constructConnector serverId, .constructTransport serverId,
          .connectAttempt serverId]) := by
      simp [MCPRegistry.getConnectorPhase1, hc, hs, hf]
    have hsid : conn.serverId = serverId :=
      MCPConnectorFactory.createConnector_serverId _ _ hf
    have hp2 : MCPRegistry.getConnectorPhase2 beh reg serverId conn =
        (.error e, reg) := by
      simp [MCPRegistry.getConnectorPhase2, MCPConnector.connect, hcf, hsid, hb]
    simp [MCPRegistry.getConnector, hp1, hp2]

/-- C1 witness: a registered stdio server whose SDK connect rejects — the
failure propagates and the registry is unchanged; and an unregistered id
rejects without constructing anything. -/
theorem mcp_c1_witness :
    ((MCPRegistry.getConnector (fun _ => ⟨.error "boom", .ok ()⟩)
        { connectors := [],
          servers := [("s1", { serverName := "srv", command := some "echo" })] }
        "s1").1 = .error "boom"
      ∧ (MCPRegistry.getConnector (fun _ => ⟨.error "boom", .ok ()⟩)
          { connectors := [],
            servers := [("s1", { serverName := "srv", command := some "echo" })] }
          "s1").2.1 =
        { connectors := [],
          servers := [("s1", { serverName := "srv", command := some "echo" })] })
    ∧ MCPRegistry.getConnector (fun _ => ⟨.error "boom", .ok ()⟩)
        { connectors := [], servers := [] } "missing" =
      (.error "Server not registered: missing",
       { connectors := [], servers := [] }, []) := by
  constructor
  · exact (mcp_c1 (fun _ => ⟨.error "boom", .ok ()⟩)
      { connectors := [],
        servers := [("s1", { serverName := "srv", command := some "echo" })] }
      "s1").2.2
      { serverName := "srv", command := some "echo" }
      { serverId := "s1", serverName := "srv",
        kind := .stdio "echo" [] none, connected := false }
      "boom" (by decide) (by decide) (by rfl) (by rfl)
  · exact (mcp_c1 (fun _ => ⟨.error "boom", .ok ()⟩)
      { connectors := [], servers := [] } "missing").2.1 (by decide) (by decide)

/-- C10: `disconnectServer` on a serverId with no cached connector rejects
with the "Server not found" error and leaves the whole registry state — both
the descriptor map and the connector cache — unchanged; the service layer
rewraps the rejection but still rejects. -/
theorem mcp_c10 (beh : Behavior) (reg : MCPRegistry) (serverId : String)
    (h : mapLookup reg.connectors serverId = none) :
    MCPRegistry.disconnectServer beh reg serverId =
      (.error ("Server not found: " ++ serverId), reg)
    ∧ MCPService.disconnectServer beh reg serverId =
      (.error ("Failed to disconnect MCP server: " ++
        ("Server not found: " ++ serverId)), reg) := by
  have h₁ : MCPRegistry.disconnectServer beh reg serverId =
      (.error ("Server not found: " ++ serverId), reg) := by
    unfold MCPRegistry.disconnectServer
    rw [h]
  refine ⟨h₁, ?_⟩
  unfold MCPService.disconnectServer
  rw [h₁]

/-- C10 witness: disconnecting a never-connected server id. -/
theorem mcp_c10_witness :
    MCPRegistry.disconnectServer (fun _ => ⟨.ok (), .ok ()⟩)
      { connectors := [],
        servers := [("s1", { serverName := "srv", command := some "echo" })] }
      "s1" =
      (.error "Server not found: s1",
       { connectors := [],
         servers := [("s1", { serverName := "srv", command := some "echo" })] }) :=
  (mcp_c10 (fun _ => ⟨.ok (), .ok ()⟩)
    { connectors := [],
      servers := [("s1", { serverName := "srv", command := some "echo" })] }
    "s1" (by decide)).1

/-- Lookup commutes with a value-wise map over an association list. -/
theorem mapLookup_map {α β : Type} (f : α → β) (m : List (String × α))
    (k : String) :
    mapLookup (m.map (fun kc => (kc.1, f kc.2))) k =
      (mapLookup m k).map f := by
  induction m with
  | nil => rfl
  | cons kv rest ih =>
      unfold mapLookup
      by_cases h : kv.1 = k <;> simp [h, ih]

/-- C2 counterexample: three connected servers, the close of "s2" throws.
The service-level `disconnectAll` resolves, yet none of the three servers is
removed from the live-connector cache — refuting the claim that afterwards
every one of them is absent. -/
theorem mcp_c2_counterexample :
    (MCPService.disconnectAll
        (fun id => if id = "s2" then ⟨.ok (), .error "close failed"⟩
                   else ⟨.ok (), .ok ()⟩)
        { connectors :=
            [("s1", { serverId := "s1", serverName := "n1",
                      kind := .stdio "c1" [] none, connected := true }),
             ("s2", { serverId := "s2", serverName := "n2",
                      kind := .stdio "c2" [] none, connected := true }),
             ("s3", { serverId := "s3", serverName := "n3",
                      kind := .stdio "c3" [] none, connected := true })],
          servers := [] }).1 = .ok ()
    ∧ mapLookup (MCPService.disconnectAll
        (fun id => if id = "s2" then ⟨.ok (), .error "close failed"⟩
                   else ⟨.ok (), .ok ()⟩)
        { connectors :=
            [("s1", { serverId := "s1", serverName := "n1",
                      kind := .stdio "c1" [] none, connected := true }),
             ("s2", { serverId := "s2", serverName := "n2",
                      kind := .stdio "c2" [] none, connected := true }),
             ("s3", { serverId := "s3", serverName := "n3",
                      kind := .stdio "c3" [] none, connected := true })],
          servers := [] }).2.connectors "s1" ≠ none
    ∧ mapLookup (MCPService.disconnectAll
        (fun id => if id = "s2" then ⟨.ok (), .error "close failed"⟩
                   else ⟨.ok (), .ok ()⟩)
        { connectors :=
            [("s1", { serverId := "s1", serverName := "n1",
                      kind := .stdio "c1" [] none, connected := true }),
             ("s2", { serverId := "s2", serverName := "n2",
                      kind := .stdio "c2" [] none, connected := true }),
             ("s3", { serverId := "s3", serverName := "n3",
                      kind := .stdio "c3" [] none, connected := true })],
          servers := [] }).2.connectors "s2" =
      some { serverId := "s2", serverName := "n2",
             kind := .stdio "c2" [] none, connected := true } := by
  refine ⟨by rfl, by decide, by decide⟩

/-- C2 (amended): `disconnectAll` attempts the graceful close of every
currently-connected entry (the fan-out happens before the `Promise.all`
join, so one member's rejection does not keep another member's close from
being attempted and taking effect), and the service-level `disconnectAll`
always resolves because `MCPService` catches and logs the aggregate
rejection; but no entry is removed from the live-connector cache — a member
whose close succeeds is merely marked disconnected, and a member whose close
throws stays cached and still marked connected. -/
theorem mcp_c2_amended (beh : Behavior) (reg : MCPRegistry) :
    (MCPService.disconnectAll beh reg).1 = .ok ()
    ∧ ((MCPService.disconnectAll beh reg).2.connectors.map Prod.fst =
        reg.connectors.map Prod.fst
       ∧ (MCPService.disconnectAll beh reg).2.servers = reg.servers)
    ∧ (∀ k c, mapLookup reg.connectors k = some c → c.connected = true →
        (beh c.serverId).closeResult = .ok () →
        mapLookup (MCPService.disconnectAll beh reg).2.connectors k =
          some { c with connected := false })
    ∧ (∀ k c e, mapLookup reg.connectors k = some c → c.connected = true →
        (beh c.serverId).closeResult = .error e →
        mapLookup (MCPService.disconnectAll beh reg).2.connectors k =
          some c) := by
  have hsvc : MCPService.disconnectAll beh reg =
      (.ok (), (MCPRegistry.disconnectAll beh reg).2) := by
    unfold MCPService.disconnectAll
    rcases h : MCPRegistry.disconnectAll beh reg with ⟨r, reg'⟩
    rfl
  refine ⟨by rw [hsvc], ⟨?_, ?_⟩, ?_, ?_⟩
  · rw [hsvc]
    unfold MCPRegistry.disconnectAll
    simp [List.map_map]
  · rw [hsvc]
    unfold MCPRegistry.disconnectAll
    rfl
  · intro k c hk hc hok
    rw [hsvc]
    unfold MCPRegistry.disconnectAll
    simp only
    rw [mapLookup_map, hk]
    simp [MCPRegistry.disconnectAllStep, MCPConnector.isConnected,
          MCPConnector.disconnect, hc, hok]
  · intro k c e hk hc herr
    rw [hsvc]
    unfold MCPRegistry.disconnectAll
    simp only
    rw [mapLookup_map, hk]
    simp [MCPRegistry.disconnectAllStep, MCPConnector.isConnected,
          MCPConnector.disconnect, hc, herr]

/-- C2 amended witness: the same three-server scenario — the member with the
throwing close stays cached and connected, a sibling's close still takes
effect, and the service-level call resolves. -/
theorem mcp_c2_amended_witness :
    (MCPService.disconnectAll
        (fun id => if id = "s2" then ⟨.ok (), .error "close failed"⟩
                   else ⟨.ok (), .ok ()⟩)
        { connectors :=
            [("s1", { serverId := "s1", serverName := "n1",
                      kind := .stdio "c1" [] none, connected := true }),
             ("s2", { serverId := "s2", serverName := "n2",
                      kind := .stdio "c2" [] none, connected := true })],
          servers := [] }).1 = .ok ()
    ∧ mapLookup (MCPService.disconnectAll
        (fun id => if id = "s2" then ⟨.ok (), .error "close failed"⟩
                   else ⟨.ok (), .ok ()⟩)
        { connectors :=
            [("s1", { serverId := "s1", serverName := "n1",
                      kind := .stdio "c1" [] none, connected := true }),
             ("s2", { serverId := "s2", serverName := "n2",
                      kind := .stdio "c2" [] none, connected := true })],
          servers := [] }).2.connectors "s1" =
      some { serverId := "s1", serverName := "n1",
             kind := .stdio "c1" [] none, connected := false }
    ∧ mapLookup (MCPService.disconnectAll
        (fun id => if id = "s2" then ⟨.ok (), .error "close failed"⟩
                   else ⟨.ok (), .ok ()⟩)
        { connectors :=
            [("s1", { serverId := "s1", serverName := "n1",
                      kind := .stdio "c1" [] none, connected := true }),
             ("s2", { serverId := "s2", serverName := "n2",
                      kind := .stdio "c2" [] none, connected := true })],
          servers := [] }).2.connectors "s2" =
      some { serverId := "s2", serverName := "n2",
             kind := .stdio "c2" [] none, connected := true } := by
  refine ⟨(mcp_c2_amended _ _).1, ?_, ?_⟩
  · exact (mcp_c2_amended
      (fun id => if id = "s2" then ⟨.ok (), .error "close failed"⟩
                 else ⟨.ok (), .ok ()⟩)
      { connectors :=
          [("s1", { serverId := "s1", serverName := "n1",
                    kind := .stdio "c1" [] none, connected := true }),
           ("s2", { serverId := "s2", serverName := "n2",
                    kind := .stdio "c2" [] none, connected := true })],
        servers := [] }).2.2.1 "s1"
      { serverId := "s1", serverName := "n1",
        kind := .stdio "c1" [] none, connected := true }
      (by decide) (by decide) (by rfl)
  · exact (mcp_c2_amended
      (fun id => if id = "s2" then ⟨.ok (), .error "close failed"⟩
                 else ⟨.ok (), .ok ()⟩)
      { connectors :=
          [("s1", { serverId := "s1", serverName := "n1",
                    kind := .stdio "c1" [] none, connected := true }),
           ("s2", { serverId := "s2", serverName := "n2",
                    kind := .stdio "c2" [] none, connected := true })],
        servers := [] }).2.2.2 "s2"
      { serverId := "s2", serverName := "n2",
        kind := .stdio "c2" [] none, connected := true }
      "close failed" (by decide) (by decide) (by rfl)

/-- Erasing a key after setting it erases it from the original list. -/
theorem mapErase_mapSet {α : Type} (m : List (String × α)) (k : String)
    (v : α) : mapErase (mapSet m k v) k = mapErase m k := by
  induction m with
  | nil => simp [mapSet, mapErase]
  | cons kv rest ih =>
      rcases kv with ⟨k₁, v₁⟩
      by_cases h : k₁ = k
      · simp [mapSet, mapErase, h]
      · simp [mapSet, mapErase, h, ih]

/-- A key is absent after erasure. -/
theorem mapLookup_mapErase_self {α : Type} (m : List (String × α))
    (k : String) : mapLookup (mapErase m k) k = none := by
  induction m with
  | nil => rfl
  | cons kv rest ih =>
      rcases kv with ⟨k₁, v₁⟩
      by_cases h : k₁ = k
      · simp [mapErase, h, ih]
      · simp [mapErase, mapLookup, h, ih]

/-- C4 counterexample: a cached, connected connector whose graceful close
throws.  `disconnectServer` rejects and the entry is still present in the
live-connector cache — refuting the claim that the entry is removed in every
outcome. -/
theorem mcp_c4_counterexample :
    MCPRegistry.disconnectServer (fun _ => ⟨.ok (), .error "close failed"⟩)
      { connectors :=
          [("s1", { serverId := "s1", serverName := "n1",
                    kind := .stdio "c1" [] none, connected := true })],
        servers := [] } "s1" =
      (.error "close failed",
       { connectors :=
           [("s1", { serverId := "s1", serverName := "n1",
                     kind := .stdio "c1" [] none, connected := true })],
         servers := [] })
    ∧ mapLookup (MCPRegistry.disconnectServer
        (fun _ => ⟨.ok (), .error "close failed"⟩)
        { connectors :=
            [("s1", { serverId := "s1", serverName := "n1",
                      kind := .stdio "c1" [] none, connected := true })],
          servers := [] } "s1").2.connectors "s1" ≠ none := by
  refine ⟨by rfl, by decide⟩

/-- C4 (amended): `disconnectServer` removes the cached entry when the
connector is not connected or when its graceful disconnect succeeds (after
which a lookup of the id misses, so a later `getConnector` rebuilds from the
registered descriptor); but when the graceful disconnect throws, the
rejection propagates and the entry remains in the cache unchanged. -/
theorem mcp_c4_amended (beh : Behavior) (reg : MCPRegistry)
    (serverId : String) (c : MCPConnector)
    (hk : mapLookup reg.connectors serverId = some c) :
    (c.connected = false →
      MCPRegistry.disconnectServer beh reg serverId =
        (.ok (), { reg with connectors := mapErase reg.connectors serverId }))
    ∧ (c.connected = true → (beh c.serverId).closeResult = .ok () →
      MCPRegistry.disconnectServer beh reg serverId =
        (.ok (), { reg with connectors := mapErase reg.connectors serverId }))
    ∧ (∀ e, c.connected = true → (beh c.serverId).closeResult = .error e →
      MCPRegistry.disconnectServer beh reg serverId = (.error e, reg))
    ∧ mapLookup (mapErase reg.connectors serverId) serverId = none := by
  refine ⟨?_, ?_, ?_, mapLookup_mapErase_self _ _⟩
  · intro hc
    unfold MCPRegistry.disconnectServer
    rw [hk]
    simp [MCPConnector.isConnected, hc]
  · intro hc hok
    unfold MCPRegistry.disconnectServer
    rw [hk]
    simp [MCPConnector.isConnected, MCPConnector.disconnect, hc, hok,
          mapErase_mapSet]
  · intro e hc herr
    unfold MCPRegistry.disconnectServer
    rw [hk]
    simp [MCPConnector.isConnected, MCPConnector.disconnect, hc, herr]

/-- C4 amended witness: a connected connector with a successful close is
removed; the same connector with a throwing close stays cached. -/
theorem mcp_c4_amended_witness :
    MCPRegistry.disconnectServer (fun _ => ⟨.ok (), .ok ()⟩)
      { connectors :=
          [("s1", { serverId := "s1", serverName := "n1",
                    kind := .stdio "c1" [] none, connected := true })],
        servers := [] } "s1" =
      (.ok (), { connectors := [], servers := [] })
    ∧ MCPRegistry.disconnectServer (fun _ => ⟨.ok (), .error "nope"⟩)
        { connectors :=
            [("s1", { serverId := "s1", serverName := "n1",
                      kind := .stdio "c1" [] none, connected := true })],
          servers := [] } "s1" =
      (.error "nope",
       { connectors :=
           [("s1", { serverId := "s1", serverName := "n1",
                     kind := .stdio "c1" [] none, connected := true })],
         servers := [] }) := by
  constructor
  · exact (mcp_c4_amended (fun _ => ⟨.ok (), .ok ()⟩)
      { connectors :=
          [("s1", { serverId := "s1", serverName := "n1",
                    kind := .stdio "c1" [] none, connected := true })],
        servers := [] } "s1"
      { serverId := "s1", serverName := "n1",
        kind := .stdio "c1" [] none, connected := true }
      (by decide)).2.1 (by decide) (by rfl)
  · exact (mcp_c4_amended (fun _ => ⟨.ok (), .error "nope"⟩)
      { connectors :=
          [("s1", { serverId := "s1", serverName := "n1",
                    kind := .stdio "c1" [] none, connected := true })],
        servers := [] } "s1"
      { serverId := "s1", serverName := "n1",
        kind := .stdio "c1" [] none, connected := true }
      (by decide)).2.2.1 "nope" (by decide) (by rfl)

/-- C3 counterexample: a registered stdio server with no cached connector;
two concurrent `getConnector("s1")` calls perform two connector
constructions and two connect attempts, not one — the cache check of the
second caller runs before the first caller's `await connector.connect()`
resolves, and the connector is only memoized after that await. -/
theorem mcp_c3_counterexample :
    (MCPRegistry.getConnectorConcurrent (fun _ => ⟨.ok (), .ok ()⟩)
        { connectors := [],
          servers := [("s1", { serverName := "srv", command := some "echo" })] }
        "s1").2.2.count (.constructConnector "s1") = 2
    ∧ (MCPRegistry.getConnectorConcurrent (fun _ => ⟨.ok (), .ok ()⟩)
        { connectors := [],
          servers := [("s1", { serverName := "srv", command := some "echo" })] }
        "s1").2.2.count (.connectAttempt "s1") = 2 := by
  refine ⟨by decide, by decide⟩

/-- C3 (amended): for a registered serverId with no cached connector, two
concurrent `getConnector(serverId)` calls each construct their own Connector
and each perform their own connect attempt (two constructions, two connect
attempts) — there is no single-flight guard on the registry's get-or-create
path; the memoization of the later success overwrites the earlier one. -/
theorem mcp_c3_amended (beh : Behavior) (reg : MCPRegistry)
    (serverId : String) (cfg : MCPServerConfig) (conn : MCPConnector)
    (hc : mapLookup reg.connectors serverId = none)
    (hs : mapLookup reg.servers serverId = some cfg)
    (hf : MCPConnectorFactory.createConnector (cfg.toOptions serverId) =
      .ok conn) :
    (MCPRegistry.getConnectorConcurrent beh reg serverId).2.2 =
      [.constructConnector serverId, .constructTransport serverId,
       .connectAttempt serverId, .constructConnector serverId,
       .constructTransport serverId, .connectAttempt serverId]
    ∧ (MCPRegistry.getConnectorConcurrent beh reg serverId).2.2.count
        (.constructConnector serverId) = 2
    ∧ (MCPRegistry.getConnectorConcurrent beh reg serverId).2.2.count
        (.connectAttempt serverId) = 2 := by
  have hp1 : MCPRegistry.getConnectorPhase1 reg serverId =
      (.pending conn,
       [.constructConnector serverId, .constructTransport serverId,
        .connectAttempt serverId]) := by
    simp [MCPRegistry.getConnectorPhase1, hc, hs, hf]
  have hev : (MCPRegistry.getConnectorConcurrent beh reg serverId).2.2 =
      [.constructConnector serverId, .constructTransport serverId,
       .connectAttempt serverId, .constructConnector serverId,
       .constructTransport serverId, .connectAttempt serverId] := by
    unfold MCPRegistry.getConnectorConcurrent
    rw [hp1]
    rcases h₁ : MCPRegistry.getConnectorPhase2 beh reg serverId conn
      with ⟨r₁, reg₁⟩
    rcases h₂ : MCPRegistry.getConnectorPhase2 beh reg₁ serverId conn
      with ⟨r₂, reg₂⟩
    simp [h₁, h₂]
  refine ⟨hev, ?_, ?_⟩ <;> rw [hev] <;> simp [List.count_cons]

/-- C3 amended witness: the two-construction trace at a concrete registered
server. -/
theorem mcp_c3_amended_witness :
    (MCPRegistry.getConnectorConcurrent (fun _ => ⟨.ok (), .ok ()⟩)
        { connectors := [],
          servers := [("s2", { serverName := "w", command := some "node" })] }
        "s2").2.2 =
      [.constructConnector "s2", .constructTransport "s2",
       .connectAttempt "s2", .constructConnector "s2",
       .constructTransport "s2", .connectAttempt "s2"] :=
  (mcp_c3_amended (fun _ => ⟨.ok (), .ok ()⟩)
    { connectors := [],
      servers := [("s2", { serverName := "w", command := some "node" })] }
    "s2" { serverName := "w", command := some "node" }
    { serverId := "s2", serverName := "w",
      kind := .stdio "node" [] none, connected := false }
    (by decide) (by decide) (by rfl)).1

/-- The `connectionChange` listener only ever touches the reconnect-attempt
counter: connection state, transport reference and last error pass through
unchanged. -/
theorem MCPConnection.onConnectionChange_frame (c : MCPConnection)
    (s : ConnectionState) :
    ((c.onConnectionChange s).1.connectionState = c.connectionState
    ∧ (c.onConnectionChange s).1.transport = c.transport)
    ∧ (c.onConnectionChange s).1.lastError = c.lastError := by
  unfold MCPConnection.onConnectionChange MCPConnection.handleReconnectionSched
  split
  · split <;> simp
  · simp

/-- C5: on a connected Connection, a failing `sendRequest` (request timeout
or error response) rejects that call with the underlying error while the
connection state remains `connected`, the transport reference is untouched,
and the last-error field is untouched — the per-call failure neither
disconnects nor errors the Connection.  (The emitted `error` event does bump
the reconnect-attempt counter, but the retry's `connect()` no-ops against the
still-connected state.) -/
theorem mcp_c5 (conn : MCPConnection) (e : String)
    (h : conn.connectionState = .connected) :
    (conn.sendRequest (.error e)).1 = .error e
    ∧ ((conn.sendRequest (.error e)).2.1).connectionState = .connected
    ∧ ((conn.sendRequest (.error e)).2.1).transport = conn.transport
    ∧ ((conn.sendRequest (.error e)).2.1).lastError = conn.lastError := by
  have hf := MCPConnection.onConnectionChange_frame conn .error
  rcases hoc : conn.onConnectionChange .error with ⟨c', sched⟩
  rw [hoc] at hf
  have hsr : conn.sendRequest (.error e) = (.error e, c', sched) := by
    unfold MCPConnection.sendRequest
    simp [h, hoc]
  rw [hsr]
  exact ⟨rfl, hf.1.1.trans h, hf.1.2, hf.2⟩

/-- C5 witness: a concrete connected connection with a timed-out call. -/
theorem mcp_c5_witness :
    (MCPConnection.sendRequest (.error "Request timeout")
      { serverId := "s1", serverName := "n1",
        connectionState := .connected, transport := some 0,
        nextTransportId := 1 }).1 = .error "Request timeout"
    ∧ ((MCPConnection.sendRequest (.error "Request timeout")
        { serverId := "s1", serverName := "n1",
          connectionState := .connected, transport := some 0,
          nextTransportId := 1 }).2.1).connectionState = .connected
    ∧ ((MCPConnection.sendRequest (.error "Request timeout")
        { serverId := "s1", serverName := "n1",
          connectionState := .connected, transport := some 0,
          nextTransportId := 1 }).2.1).transport = some 0 :=
  have h := mcp_c5
    { serverId := "s1", serverName := "n1",
      connectionState := .connected, transport := some 0,
      nextTransportId := 1 } "Request timeout" (by rfl)
  ⟨h.1, h.2.1, h.2.2.1⟩

/-- C6: on a transition to `error` observed by the `connectionChange`
listener while the state field does not read `connecting` (the error occurred
outside an active connecting attempt), a reconnect is scheduled after
`reconnectDelay * 1.5 ^ (attempt - 1)` milliseconds, where `attempt` is the
incremented attempt count; once the counter has reached the maximum, nothing
further is scheduled and the Connection is left exactly as it was (in
particular it stays in `error`); and a successful fresh `connect()` resets
the attempt counter to zero. -/
theorem mcp_c6 (conn : MCPConnection) :
    (conn.connectionState ≠ .connecting →
      conn.reconnectAttempts < conn.maxReconnectAttempts →
      conn.onConnectionChange .error =
        ({ conn with reconnectAttempts := conn.reconnectAttempts + 1 },
         some (conn.reconnectDelay *
           (3 / 2 : ℚ) ^ ((conn.reconnectAttempts + 1) - 1))))
    ∧ (conn.connectionState ≠ .connecting →
       conn.reconnectAttempts ≥ conn.maxReconnectAttempts →
       conn.onConnectionChange .error = (conn, none))
    ∧ (conn.connectionState ≠ .connected → conn.connectPromise = false →
       (conn.connect (.ok ())).1 = .ok ()
       ∧ ((conn.connect (.ok ())).2.1).reconnectAttempts = 0) := by
  refine ⟨?_, ?_, ?_⟩
  · intro hs hlt
    unfold MCPConnection.onConnectionChange MCPConnection.handleReconnectionSched
    simp [hs, not_le.mpr hlt]
  · intro hs hge
    unfold MCPConnection.onConnectionChange MCPConnection.handleReconnectionSched
    simp [hs, hge]
  · intro hs hp
    unfold MCPConnection.connect
    simp [hs, hp]

/-- C6 witness: a connection in `error` with two prior attempts gets a third
attempt scheduled after `2000 * 1.5^2` ms; at the ceiling nothing is
scheduled; a fresh successful connect zeroes the counter. -/
theorem mcp_c6_witness :
    MCPConnection.onConnectionChange
      { serverId := "s1", serverName := "n1", connectionState := .error,
        reconnectAttempts := 2 } .error =
      ({ serverId := "s1", serverName := "n1", connectionState := .error,
         reconnectAttempts := 3 },
       some (2000 * (3 / 2 : ℚ) ^ ((2 + 1) - 1)))
    ∧ MCPConnection.onConnectionChange
        { serverId := "s1", serverName := "n1", connectionState := .error,
          reconnectAttempts := 5 } .error =
      ({ serverId := "s1", serverName := "n1", connectionState := .error,
         reconnectAttempts := 5 }, none)
    ∧ ((MCPConnection.connect (.ok ())
        { serverId := "s1", serverName := "n1", connectionState := .error,
          reconnectAttempts := 2 }).2.1).reconnectAttempts = 0 := by
  refine ⟨?_, ?_, ?_⟩
  · exact (mcp_c6 ⟨"s1", "n1", .error, none, 0, false, none, 2, 5, 2000⟩).1
      (by decide) (by decide)
  · exact (mcp_c6 ⟨"s1", "n1", .error, none, 0, false, none, 5, 5, 2000⟩).2.1
      (by decide) (by decide)
  · exact ((mcp_c6 ⟨"s1", "n1", .error, none, 0, false, none, 2, 5, 2000⟩).2.2
      (by decide) (by decide)).2

/-- C7: any `connect()` whose attempt succeeds leaves `isConnected()` true
(including the no-op on an already-connected Connection); after
`disconnect()` the predicate is false in every case; and whenever the state
is not `connected`, `sendRequest` returns the not-connected rejection
immediately with the Connection completely untouched and nothing scheduled —
no request is queued for a later connection. -/
theorem mcp_c7 (conn : MCPConnection) (closeRes : Except String Unit)
    (outcome : Except String String) :
    (conn.connectPromise = false →
      (conn.connect (.ok ())).1 = .ok ()
      ∧ ((conn.connect (.ok ())).2.1).isConnected = true)
    ∧ (conn.disconnect closeRes).isConnected = false
    ∧ (conn.connectionState ≠ .connected →
       conn.sendRequest outcome =
         (.error ("MCP server " ++ conn.serverId ++ " is not connected"),
          conn, none)) := by
  refine ⟨?_, ?_, ?_⟩
  · intro hp
    by_cases hcs : conn.connectionState = .connected <;>
      simp [MCPConnection.connect, MCPConnection.isConnected, hcs, hp]
  · by_cases hcs : conn.connectionState = .disconnected <;>
      simp [MCPConnection.disconnect, MCPConnection.isConnected, hcs]
  · intro hcs
    unfold MCPConnection.sendRequest
    simp [hcs]

/-- C7 witness: connect succeeds on a disconnected connection and
`isConnected` flips to true; disconnecting a connected connection flips it to
false; `sendRequest` on the disconnected connection rejects untouched. -/
theorem mcp_c7_witness :
    ((MCPConnection.connect (.ok ())
        { serverId := "s1", serverName := "n1" }).2.1).isConnected = true
    ∧ (MCPConnection.disconnect (.ok ())
        { serverId := "s1", serverName := "n1",
          connectionState := .connected,
          transport := some 0 }).isConnected = false
    ∧ MCPConnection.sendRequest (.ok "pong")
        { serverId := "s1", serverName := "n1" } =
      (.error "MCP server s1 is not connected",
       { serverId := "s1", serverName := "n1" }, none) := by
  refine ⟨?_, ?_, ?_⟩
  · exact ((mcp_c7 ⟨"s1", "n1", .disconnected, none, 0, false, none, 0, 5, 2000⟩
      (.ok ()) (.ok "pong")).1 (by rfl)).2
  · exact (mcp_c7 ⟨"s1", "n1", .connected, some 0, 0, false, none, 0, 5, 2000⟩
      (.ok ()) (.ok "pong")).2.1
  · exact (mcp_c7 ⟨"s1", "n1", .disconnected, none, 0, false, none, 0, 5, 2000⟩
      (.ok ()) (.ok "pong")).2.2 (by decide)

/-- Accumulating a per-element list with `foldl` flattens to `flatMap`. -/
theorem foldl_append_flatMap {α β : Type} (f : α → List β) (l : List α)
    (init : List β) :
    l.foldl (fun acc x => acc ++ f x) init = init ++ l.flatMap f := by
  induction l generalizing init with
  | nil => simp
  | cons a rest ih => simp [List.flatMap_cons, ih]

/-- Every tool the facade generates carries a capability strictly shorter
than its prefixed tool name. -/
theorem toolsForServer_capability_lt (server : MCPServerRec)
    (t : MCPToolModel) (ht : t ∈ MCPToolRegistry.toolsForServer server) :
    t.capability.length < t.name.length := by
  unfold MCPToolRegistry.toolsForServer at ht
  have hdash : ("-" : String).length = 1 := by decide
  have hdd : ("-default" : String).length = 8 := by decide
  have hd : ("default" : String).length = 7 := by decide
  split at ht
  · rw [List.mem_map] at ht
    obtain ⟨cap, _, rfl⟩ := ht
    simp only [String.length_append]
    omega
  · rw [List.mem_singleton] at ht
    subst ht
    simp only [String.length_append]
    omega

/-- C8: `createLangChainTools` over the enabled servers is the concatenation
of each server's tools; a server with declared capabilities contributes
exactly one tool per capability, named `{serverName}-{capabilityName}` and
storing the bare capability; a server with zero capabilities contributes the
single `{serverName}-default` tool storing `"default"`; and every generated
tool's invocation forwards the stored bare capability (never the prefixed
tool name, from which it always differs) as the protocol method, against the
tool's server id. -/
theorem mcp_c8 (servers : List MCPServerRec) :
    MCPToolRegistry.createLangChainTools servers =
      servers.flatMap MCPToolRegistry.toolsForServer
    ∧ (∀ server : MCPServerRec, server.capabilities ≠ [] →
        MCPToolRegistry.toolsForServer server =
          server.capabilities.map (fun cap =>
            { name := server.name ++ "-" ++ cap.name
              description := cap.description
              mcpServerId := server.id
              capability := cap.name })
        ∧ (MCPToolRegistry.toolsForServer server).length =
            server.capabilities.length)
    ∧ (∀ server : MCPServerRec, server.capabilities = [] →
        MCPToolRegistry.toolsForServer server =
          [{ name := server.name ++ "-default"
             description := "Interact with " ++ server.name ++ " MCP server"
             mcpServerId := server.id
             capability := "default" }])
    ∧ (∀ t ∈ MCPToolRegistry.createLangChainTools servers,
        (MCPTool.issuedWire t).method = t.capability
        ∧ (MCPTool.issuedWire t).serverId = t.mcpServerId
        ∧ (MCPTool.issuedWire t).method ≠ t.name) := by
  have hflat : MCPToolRegistry.createLangChainTools servers =
      servers.flatMap MCPToolRegistry.toolsForServer := by
    unfold MCPToolRegistry.createLangChainTools
    simpa using foldl_append_flatMap MCPToolRegistry.toolsForServer servers []
  refine ⟨hflat, ?_, ?_, ?_⟩
  · intro server hne
    have hlen : server.capabilities.length > 0 := by
      cases hcaps : server.capabilities with
      | nil => exact absurd hcaps hne
      | cons a rest => simp [hcaps]
    constructor
    · unfold MCPToolRegistry.toolsForServer
      simp [hlen]
    · unfold MCPToolRegistry.toolsForServer
      simp [hlen]
  · intro server hnil
    unfold MCPToolRegistry.toolsForServer
    simp [hnil]
  · intro t ht
    rw [hflat, List.mem_flatMap] at ht
    obtain ⟨server, _, htm⟩ := ht
    have hlt := toolsForServer_capability_lt server t htm
    refine ⟨rfl, rfl, ?_⟩
    intro heq
    have : t.capability.length = t.name.length := by
      have : (MCPTool.issuedWire t).method = t.capability := rfl
      rw [this] at heq
      rw [heq]
    omega

/-- C8 has no hypotheses beyond the universally quantified server list, but a
concrete evaluation: one server with two capabilities and one with none. -/
theorem mcp_c8_witness :
    MCPToolRegistry.createLangChainTools
      [{ id := "id1", name := "fs",
         capabilities := [{ name := "read", description := "r" },
                          { name := "write", description := "w" }] },
       { id := "id2", name := "bare", capabilities := [] }] =
      [{ name := "fs-read", description := "r", mcpServerId := "id1",
         capability := "read" },
       { name := "fs-write", description := "w", mcpServerId := "id1",
         capability := "write" },
       { name := "bare-default",
         description := "Interact with bare MCP server",
         mcpServerId := "id2", capability := "default" }]
    ∧ MCPTool.issuedWire
        { name := "fs-read", description := "r", mcpServerId := "id1",
          capability := "read" } =
      { serverId := "id1", method := "read" } := by
  refine ⟨by decide, by rfl⟩

/-- C9: for a registered-but-uncached subprocess (stdio) server whose
descriptor carries a truthy (present, non-empty) command — the factory
throws before any spawn otherwise —
`getConnector` constructs a connector whose child process is spawned with
the environment `options.env || <process.env with undefined entries
filtered>`: when the descriptor supplies no environment overrides the child
inherits the parent process's (defined) environment variables, and when
overrides are supplied they are exactly the child's configured environment,
so every override binding takes effect. -/
theorem mcp_c9 (reg : MCPRegistry) (serverId : String)
    (cfg : MCPServerConfig) (cmd : String)
    (procEnv : List (String × Option String))
    (hc : mapLookup reg.connectors serverId = none)
    (hs : mapLookup reg.servers serverId = some cfg)
    (htype : jsOrStr cfg.type "stdio" = "stdio")
    (hcmd : cfg.command = some cmd) (hcmd' : cmd ≠ "") :
    ∃ conn, (reg.getConnectorPhase1 serverId).1 = .pending conn
      ∧ conn.stdioSpawnEnv procEnv =
          some (STDIOMCPConnector.spawnEnv cfg.env procEnv)
      ∧ (cfg.env = none →
          STDIOMCPConnector.spawnEnv cfg.env procEnv =
            filterDefinedEnv procEnv)
      ∧ (∀ e, cfg.env = some e →
          STDIOMCPConnector.spawnEnv cfg.env procEnv = e
          ∧ ∀ kv ∈ e, kv ∈ STDIOMCPConnector.spawnEnv cfg.env procEnv) := by
  have hf : MCPConnectorFactory.createConnector (cfg.toOptions serverId) =
      .ok { serverId := serverId, serverName := cfg.serverName,
            kind := .stdio cmd (cfg.args.getD []) cfg.env,
            connected := false } := by
    unfold MCPConnectorFactory.createConnector MCPServerConfig.toOptions
    simp [htype, hcmd, hcmd']
  refine ⟨{ serverId := serverId, serverName := cfg.serverName,
            kind := .stdio cmd (cfg.args.getD []) cfg.env,
            connected := false }, ?_, rfl, ?_, ?_⟩
  · simp [MCPRegistry.getConnectorPhase1, hc, hs, hf]
  · intro henv
    rw [henv]
    rfl
  · intro e henv
    rw [henv]
    exact ⟨rfl, fun kv hkv => hkv⟩

/-- C9 witness: with explicit overrides the child's environment is exactly
the overrides; without them it is the parent's filtered environment. -/
theorem mcp_c9_witness :
    (∃ conn,
      (MCPRegistry.getConnectorPhase1
        { connectors := [],
          servers := [("s1", { serverName := "srv", command := some "echo",
                               env := some [("K", "V")] })] }
        "s1").1 = .pending conn
      ∧ conn.stdioSpawnEnv [("PATH", some "/bin"), ("GONE", none)] =
          some (STDIOMCPConnector.spawnEnv (some [("K", "V")])
            [("PATH", some "/bin"), ("GONE", none)])
      ∧ ((some [("K", "V")] : Option (List (String × String))) = none →
          STDIOMCPConnector.spawnEnv (some [("K", "V")])
            [("PATH", some "/bin"), ("GONE", none)] =
            filterDefinedEnv [("PATH", some "/bin"), ("GONE", none)])
      ∧ (∀ e, (some [("K", "V")] : Option (List (String × String))) = some e →
          STDIOMCPConnector.spawnEnv (some [("K", "V")])
            [("PATH", some "/bin"), ("GONE", none)] = e
          ∧ ∀ kv ∈ e, kv ∈ STDIOMCPConnector.spawnEnv (some [("K", "V")])
              [("PATH", some "/bin"), ("GONE", none)]))
    ∧ (∃ conn,
      (MCPRegistry.getConnectorPhase1
        { connectors := [],
          servers := [("s2", { serverName := "srv2",
                               command := some "node" })] }
        "s2").1 = .pending conn
      ∧ conn.stdioSpawnEnv [("PATH", some "/bin"), ("GONE", none)] =
          some (STDIOMCPConnector.spawnEnv none
            [("PATH", some "/bin"), ("GONE", none)])
      ∧ ((none : Option (List (String × String))) = none →
          STDIOMCPConnector.spawnEnv none
            [("PATH", some "/bin"), ("GONE", none)] =
            filterDefinedEnv [("PATH", some "/bin"), ("GONE", none)])
      ∧ (∀ e, (none : Option (List (String × String))) = some e →
          STDIOMCPConnector.spawnEnv none
            [("PATH", some "/bin"), ("GONE", none)] = e
          ∧ ∀ kv ∈ e, kv ∈ STDIOMCPConnector.spawnEnv none
              [("PATH", some "/bin"), ("GONE", none)])) := by
  constructor
  · exact mcp_c9
      { connectors := [],
        servers := [("s1", { serverName := "srv", command := some "echo",
                             env := some [("K", "V")] })] }
      "s1"
      { serverName := "srv", command := some "echo", env := some [("K", "V")] }
      "echo" [("PATH", some "/bin"), ("GONE", none)]
      (by decide) (by decide) (by decide) (by decide) (by decide)
  · exact mcp_c9
      { connectors := [],
        servers := [("s2", { serverName := "srv2", command := some "node" })] }
      "s2"
      { serverName := "srv2", command := some "node" }
      "node" [("PATH", some "/bin"), ("GONE", none)]
      (by decide) (by decide) (by decide) (by decide) (by decide)

end ChatLLM
